import Mathlib

/-!
# Verification of the postgres migration driver

A shallow embedding of `driver/postgres/postgres.go` from the `migrate`
repository.  The driver's `Migrate` method runs one migration file inside a
database transaction, records (or removes) the file's version in the
`schema_migrations` bookkeeping table, and streams progress events over a
channel that is closed by a deferred call on every exit path.

The database connection is modelled by an environment `Env` that fixes the
outcome (success or a Go error value) of each externally-effectful call the
function makes, in program order: `Begin`, the `CREATE TABLE` exec, the
bookkeeping `INSERT`/`DELETE` exec, `ReadContent`, the migration-body exec,
`Rollback` and `Commit`.  Running `migrate` against an environment yields the
trace of operations on the progress channel (`pipeOps`), the trace of calls
made on the transaction (`dbActions`), and whether the run panicked via the
unchecked `err.(*pq.Error)` type assertion (`crashed`).  A deferred `close`
runs even during a panic, so the pipe trace always ends with `close`.
-/

set_option maxRecDepth 8000
set_option maxHeartbeats 2000000

namespace Postgres

/-- Direction of a migration file.  The spec's enum has the two values
Apply (`Up`) and Revert (`Down`); the underlying Go type (an integer in the
repository's `direction` package, which is outside the sources examined here)
admits further values, and the source's `if / else if` chain on the direction
falls through for any such value, so the model keeps one extra inhabitant. -/
inductive Direction
  | up
  | down
  | other
deriving DecidableEq, Repr

/-- The fields of a `pq.Error` that `Migrate` reads: severity label, error
code, human message, and the textual 1-based position offset. -/
structure PqError where
  severity : String
  code : String
  message : String
  position : String
deriving DecidableEq, Repr

/-- A Go error value as far as this driver can observe it: either a
`*pq.Error` (the shape the body-failure branch casts to) or any other error
(identified by its message). -/
inductive GoError
  | pq (e : PqError)
  | generic (msg : String)
deriving DecidableEq, Repr

/-- A migration file: version, direction, and SQL content.  `content` is the
text that `ReadContent` makes available; whether that load succeeds is part of
the environment. -/
structure File where
  version : Nat
  direction : Direction
  content : String
deriving DecidableEq, Repr

/-- The driver state that `Migrate` reads: the simulate-mode flag. -/
structure Driver where
  simulate : Bool
deriving DecidableEq, Repr

/-- Outcomes of the externally-effectful calls in `Migrate`, in program
order.  `none` means the call succeeds; `some e` means it returns error `e`. -/
structure Env where
  beginErr : Option GoError
  createErr : Option GoError
  bookErr : Option GoError
  readErr : Option GoError
  bodyErr : Option GoError
  rollbackErr : Option GoError
  commitErr : Option GoError
deriving DecidableEq, Repr

/-- A value sent on the progress channel. -/
inductive Event
  | file (f : File)
  | str (s : String)
  | err (e : GoError)
deriving DecidableEq, Repr

/-- An operation on the progress channel: a send, or the close. -/
inductive PipeOp
  | send (e : Event)
  | close
deriving DecidableEq, Repr

/-- A call made on the database connection or its transaction. -/
inductive DbAction
  | begin
  | exec (q : String)
  | rollback
  | commit
deriving DecidableEq, Repr

/-- Result of a `Migrate` run: the channel trace, the database-call trace,
and whether the run panicked on the unchecked type assertion. -/
structure MigrateResult where
  pipeOps : List PipeOp
  dbActions : List DbAction
  crashed : Bool
deriving DecidableEq, Repr

/-- The fixed bookkeeping table name. -/
def tableName : String := "schema_migrations"

/-- The idempotent table-bootstrap statement. -/
def createTableStmt : String :=
  "CREATE TABLE IF NOT EXISTS \"" ++ tableName ++ "\" (version int not null primary key);"

/-- The Apply-direction bookkeeping statement. -/
def insertStmt (version : Nat) : String :=
  "INSERT INTO \"" ++ tableName ++ "\" (version) VALUES (" ++ toString version ++ ")"

/-- The Revert-direction bookkeeping statement. -/
def deleteStmt (version : Nat) : String :=
  "DELETE FROM \"" ++ tableName ++ "\" WHERE version=" ++ toString version

/-- The visual separator prepended to simulated statement text. -/
def sepLine : String := "--------------------------------\n"

/-- The value of a run of decimal digit characters. -/
def digitsVal (l : List Char) : Nat :=
  l.foldl (fun acc c => 10 * acc + (c.toNat - 48)) 0

/-- Shared digit-run handling of `atoi`: an empty run, a non-digit
character, or a signed value outside the 64-bit machine `int` range
(`strconv.Atoi`'s `ErrRange`) is a parse error; otherwise the signed value
is returned. -/
def atoiDigits (l : List Char) (neg : Bool) : Option Int :=
  if l.isEmpty then none
  else if l.all Char.isDigit then
    let v : Int :=
      if neg then -(Int.ofNat (digitsVal l)) else Int.ofNat (digitsVal l)
    if -9223372036854775808 ≤ v ∧ v ≤ 9223372036854775807 then some v
    else none
  else none

/-- Model of Go's `strconv.Atoi` (on a 64-bit `int`): an optional sign
followed by one or more decimal digits parses to the signed value when the
value fits in `int64`; the empty string, any other character, or an
out-of-range value (`ErrRange`) is an error — `Atoi` then returns a non-nil
error, which is all the caller at the body-failure branch inspects. -/
def atoi (s : String) : Option Int :=
  match s.data with
  | [] => none
  | '+' :: rest => atoiDigits rest false
  | '-' :: rest => atoiDigits rest true
  | l => atoiDigits l false

/-- Modelled from the spec: `file.LineColumnFromOffset` belongs to this
repository's `file` package, which is not among the sources examined here.
Per the pinned contract, given the full text buffer and a 0-based byte offset
it returns the 1-based line and column, and an offset before the first
character reports line 1, column 1 (offsets are clamped to the buffer). -/
def LineColumnFromOffset (content : String) (offset : Int) : Nat × Nat :=
  let off := min (Int.toNat offset) content.length
  let pre := content.data.take off
  let line := 1 + pre.count '\n'
  let col := 1 + (pre.reverse.takeWhile (fun c => c != '\n')).length
  (line, col)

/-- Modelled from the spec: `file.LinesBeforeAndAfter` belongs to this
repository's `file` package, which is not among the sources examined here.
Per the pinned contract, given the text, a 1-based line number and counts of
leading and trailing context lines, it returns the concatenated text of that
window, with line-number prefixes when requested. -/
def LinesBeforeAndAfter (content : String) (lineNo before after : Nat)
    (lineNumbers : Bool) : String :=
  let lines := content.splitOn "\n"
  let lo := max (lineNo - before) 1
  let hi := min (lineNo + after) lines.length
  String.intercalate "\n"
    ((List.range' lo (hi + 1 - lo)).map fun i =>
      (if lineNumbers then toString i ++ ": " else "") ++ lines.getD (i - 1) "")

/-- Events the `exec` closure sends: in simulate mode the literal statement
text behind the separator, otherwise nothing. -/
def execEvents (sim : Bool) (q : String) : List Event :=
  if sim then [Event.str (sepLine ++ q)] else []

/-- Transaction calls the `exec` closure makes: in simulate mode none,
otherwise a `tx.Exec` of the statement. -/
def execActs (sim : Bool) (q : String) : List DbAction :=
  if sim then [] else [DbAction.exec q]

/-- The error the `exec` closure returns: always `nil` in simulate mode,
otherwise whatever the real `tx.Exec` returned. -/
def execOutcome (sim : Bool) (res : Option GoError) : Option GoError :=
  if sim then none else res

/-- Events sent while handling a failed step: the rollback is attempted and
its error, if any, is also pushed on the pipe. -/
def rollbackEvents (env : Env) : List Event :=
  match env.rollbackErr with
  | some e => [Event.err e]
  | none => []

/-- Package a run up to a `return` (or panic): the deferred `close(pipe)`
appends the final close to everything that was sent. -/
def finish (sends : List Event) (acts : List DbAction) (crashed : Bool) :
    MigrateResult :=
  ⟨sends.map PipeOp.send ++ [PipeOp.close], acts, crashed⟩

/-- The composite message without location context: the engine's severity,
code and message. -/
def plainMessage (p : PqError) : String :=
  p.severity ++ " " ++ p.code ++ ": " ++ p.message

/-- The composite message when the offset parsed: for a non-negative offset,
the line and column are resolved from `offset - 1`, the context window is 5
lines before and 5 lines after that line, and all of it is combined with the
severity, code and message; a negative offset falls back to the plain
composite. -/
def locatedMessage (f : File) (p : PqError) (offset : Int) : String :=
  if 0 ≤ offset then
    let lc := LineColumnFromOffset f.content (offset - 1)
    let errorPart := LinesBeforeAndAfter f.content lc.1 5 5 true
    p.severity ++ " " ++ p.code ++ ": " ++ p.message ++ " in line " ++
      toString lc.1 ++ ", column " ++ toString lc.2 ++ ":\n\n" ++ errorPart
  else plainMessage p

/-- Dispatch on the parse result of the error's `Position` field, mirroring
the source's `if err == nil && offset >= 0` test. -/
def positionMessage (f : File) (p : PqError) : Option Int → String
  | some offset => locatedMessage f p offset
  | none => plainMessage p

/-- The error event built in the migration-body failure branch: the error is
cast to `*pq.Error` (callers of this function model the successful cast), its
`Position` field is parsed with `Atoi`, and on a parseable non-negative
offset the message is enriched with the line, column and a 5-line context
window computed from `offset - 1`; otherwise the bare severity/code/message
composite is used. -/
def bodyFailureEvent (f : File) (p : PqError) : Event :=
  Event.err (GoError.generic (positionMessage f p (atoi p.position)))

/-- Steps 5-7 of `Migrate`, from `f.ReadContent()` onward: content load
(failure emits the error and returns with no rollback), body execution
(failure casts to `*pq.Error` — panicking if the error has another shape —
then emits the composite error and rolls back), and commit (failure emits the
error and returns). -/
def migrateFromRead (sim : Bool) (f : File) (env : Env)
    (sends : List Event) (acts : List DbAction) : MigrateResult :=
  match env.readErr with
  | some e => finish (sends ++ [Event.err e]) acts false
  | none =>
    let sends := sends ++ execEvents sim f.content
    let acts := acts ++ execActs sim f.content
    match execOutcome sim env.bodyErr with
    | some e =>
      match e with
      | GoError.generic _ => finish sends acts true
      | GoError.pq p =>
        finish (sends ++ [bodyFailureEvent f p] ++ rollbackEvents env)
          (acts ++ [DbAction.rollback]) false
    | none =>
      let acts := acts ++ [DbAction.commit]
      match env.commitErr with
      | some e => finish (sends ++ [Event.err e]) acts false
      | none => finish sends acts false

/-- The driver's `Migrate` method: send the file, begin a transaction,
bootstrap the bookkeeping table, insert or delete the version row according
to the file's direction (skipping the step for any other direction value),
then load and execute the body and commit, emitting every error on the pipe
and attempting a rollback on the statement-failure paths.  The deferred
`close(pipe)` is modelled inside `finish`. -/
def migrate (d : Driver) (f : File) (env : Env) : MigrateResult :=
  let sends : List Event := [Event.file f]
  match env.beginErr with
  | some e => finish (sends ++ [Event.err e]) [] false
  | none =>
    let acts : List DbAction := [DbAction.begin]
    let sends := sends ++ execEvents d.simulate createTableStmt
    let acts := acts ++ execActs d.simulate createTableStmt
    match execOutcome d.simulate env.createErr with
    | some e =>
      finish (sends ++ [Event.err e] ++ rollbackEvents env)
        (acts ++ [DbAction.rollback]) false
    | none =>
      match f.direction with
      | Direction.up =>
        let sends := sends ++ execEvents d.simulate (insertStmt f.version)
        let acts := acts ++ execActs d.simulate (insertStmt f.version)
        match execOutcome d.simulate env.bookErr with
        | some e =>
          finish (sends ++ [Event.err e] ++ rollbackEvents env)
            (acts ++ [DbAction.rollback]) false
        | none => migrateFromRead d.simulate f env sends acts
      | Direction.down =>
        let sends := sends ++ execEvents d.simulate (deleteStmt f.version)
        let acts := acts ++ execActs d.simulate (deleteStmt f.version)
        match execOutcome d.simulate env.bookErr with
        | some e =>
          finish (sends ++ [Event.err e] ++ rollbackEvents env)
            (acts ++ [DbAction.rollback]) false
        | none => migrateFromRead d.simulate f env sends acts
      | Direction.other => migrateFromRead d.simulate f env sends acts

/-- The query text of the driver's `Version` method. -/
def versionQuery : String :=
  "SELECT version FROM " ++ tableName ++ " ORDER BY version DESC LIMIT 1"

/-- What `QueryRow(...).Scan` can report back to `Version`: a row with a
version, no rows (`sql.ErrNoRows`), or any other failure. -/
inductive QueryOutcome
  | row (v : Nat)
  | noRows
  | failure (e : GoError)
deriving DecidableEq, Repr

/-- Model of the engine's response to `versionQuery` over the bookkeeping
table's rows: `ORDER BY version DESC LIMIT 1` yields the largest version
present, and an empty table surfaces as `sql.ErrNoRows`. -/
def runVersionQuery (rows : List Nat) : QueryOutcome :=
  match rows with
  | [] => QueryOutcome.noRows
  | v :: rest =>
    match runVersionQuery rest with
    | QueryOutcome.row m => QueryOutcome.row (max v m)
    | _ => QueryOutcome.row v

/-- The driver's `Version` method on a scan outcome: `sql.ErrNoRows` maps to
`(0, nil)`, any other error propagates as `(0, err)`, and a row yields its
version with no error. -/
def Version (outcome : QueryOutcome) : Nat × Option GoError :=
  match outcome with
  | QueryOutcome.noRows => (0, none)
  | QueryOutcome.failure e => (0, some e)
  | QueryOutcome.row v => (v, none)

/-! ## Observations on traces -/

/-- The diagnostic strings sent on the pipe, in order. -/
def strEvents (ops : List PipeOp) : List String :=
  ops.filterMap fun op =>
    match op with
    | PipeOp.send (Event.str s) => some s
    | _ => none

/-- The error values sent on the pipe, in order. -/
def errEvents (ops : List PipeOp) : List GoError :=
  ops.filterMap fun op =>
    match op with
    | PipeOp.send (Event.err e) => some e
    | _ => none

/-- How many error values a complete drain of the pipe yields. -/
def errCount (ops : List PipeOp) : Nat := (errEvents ops).length

/-- How many times the pipe is closed. -/
def closeCount (ops : List PipeOp) : Nat :=
  ops.countP fun op =>
    match op with
    | PipeOp.close => true
    | _ => false

/-- How many statements were executed on the transaction. -/
def execCount (acts : List DbAction) : Nat :=
  acts.countP fun a =>
    match a with
    | DbAction.exec _ => true
    | _ => false

/-- How many transactions were begun. -/
def beginCount (acts : List DbAction) : Nat :=
  acts.countP fun a =>
    match a with
    | DbAction.begin => true
    | _ => false

/-- Recognizes a pipe-trace suffix of at most `maxErrs` error sends followed
by the close. -/
def errsThenClose : Nat → List PipeOp → Bool
  | _, [PipeOp.close] => true
  | Nat.succ n, PipeOp.send (Event.err _) :: rest => errsThenClose n rest
  | _, _ => false

/-- Recognizes a pipe-trace suffix of diagnostic-string sends, then at most
`maxErrs` error sends, then the close. -/
def strsThenErrsClose (maxErrs : Nat) : List PipeOp → Bool
  | PipeOp.send (Event.str _) :: rest => strsThenErrsClose maxErrs rest
  | ops => errsThenClose maxErrs ops

/-- Recognizes the event-sequence shape of a run: the migration file first,
then diagnostic strings, then at most `maxErrs` errors, then the close. -/
def pipeShape (maxErrs : Nat) (ops : List PipeOp) : Bool :=
  match ops with
  | PipeOp.send (Event.file _) :: rest => strsThenErrsClose maxErrs rest
  | _ => false

/-! ## Path analysis shared by the channel-contract claims -/

/-- Every run of `migrate`, over every environment, file and mode: the pipe
is closed exactly once and last, the trace starts with the file event and has
the shape file-strings-errors-close with at most two errors, and a second
error appears only when the rollback attempt itself fails. -/
theorem migrate_paths (d : Driver) (f : File) (env : Env) :
    closeCount (migrate d f env).pipeOps = 1 ∧
    (migrate d f env).pipeOps.getLast? = some PipeOp.close ∧
    (migrate d f env).pipeOps.head? = some (PipeOp.send (Event.file f)) ∧
    pipeShape 2 (migrate d f env).pipeOps = true ∧
    errCount (migrate d f env).pipeOps ≤ 2 ∧
    (env.rollbackErr = none → errCount (migrate d f env).pipeOps ≤ 1) := by
  obtain ⟨sim⟩ := d
  obtain ⟨v, dir, content⟩ := f
  obtain ⟨be, ce, ke, re, de, rbe, cme⟩ := env
  cases sim <;> cases be <;> cases ce <;> cases dir <;> cases ke <;> cases re <;>
    rcases de with _ | (p | m) <;> cases rbe <;> cases cme <;>
    first
      | exact ⟨rfl, rfl, rfl, rfl, of_decide_eq_true rfl, fun _ => of_decide_eq_true rfl⟩
      | exact ⟨rfl, rfl, rfl, rfl, of_decide_eq_true rfl, fun h => Option.noConfusion h⟩

/-! ## Claims -/

/-- Claim C2: for every invocation of `Migrate`, on every exit path —
successful commit, begin failure, bookkeeping failure, content-load failure,
body failure, commit failure — the progress channel is closed exactly once,
and no event is emitted after it is closed (the close is the last operation
on the pipe). -/
theorem c2_channel_closed_exactly_once (d : Driver) (f : File) (env : Env) :
    closeCount (migrate d f env).pipeOps = 1 ∧
    (migrate d f env).pipeOps.getLast? = some PipeOp.close :=
  ⟨(migrate_paths d f env).1, (migrate_paths d f env).2.1⟩

/-- Claim C3, counterexample: a run whose bookkeeping-table bootstrap fails
and whose rollback attempt also fails drains to two error values, refuting
"never more than one". -/
theorem c3_counterexample :
    errCount (migrate ⟨false⟩ ⟨1, Direction.up, "SELECT 1"⟩
      ⟨none, some (GoError.generic "create failed"), none, none, none,
        some (GoError.generic "rollback failed"), none⟩).pipeOps = 2 := rfl

/-- Claim C3, amended: a complete drain of the progress channel yields at
most two errors, and at most one whenever the rollback attempt does not
itself fail; the only way to observe a second error is a failing rollback,
whose error is pushed right after the error that triggered it. -/
theorem c3_at_most_one_error_unless_rollback_fails (d : Driver) (f : File)
    (env : Env) :
    errCount (migrate d f env).pipeOps ≤ 2 ∧
    (env.rollbackErr = none → errCount (migrate d f env).pipeOps ≤ 1) :=
  ⟨(migrate_paths d f env).2.2.2.2.1, (migrate_paths d f env).2.2.2.2.2⟩

/-- Claim C3, witness: with a successful rollback environment the drain
yields at most one error. -/
theorem c3_witness :
    errCount (migrate ⟨false⟩ ⟨1, Direction.up, "SELECT 1"⟩
      ⟨none, some (GoError.generic "create failed"), none, none, none, none,
        none⟩).pipeOps ≤ 1 :=
  (c3_at_most_one_error_unless_rollback_fails ⟨false⟩
    ⟨1, Direction.up, "SELECT 1"⟩
    ⟨none, some (GoError.generic "create failed"), none, none, none, none,
      none⟩).2 rfl

/-- Claim C8, counterexample: a run whose bookkeeping insert fails and whose
rollback also fails emits the file and then two errors, so the full sequence
does not match the claimed shape file-strings-(at most one error)-close. -/
theorem c8_counterexample :
    pipeShape 1 (migrate ⟨false⟩ ⟨2, Direction.up, "SELECT 2"⟩
      ⟨none, none, some (GoError.generic "insert failed"), none, none,
        some (GoError.generic "rollback also failed"), none⟩).pipeOps
      = false := rfl

/-- Claim C8, amended: the very first event emitted on the progress channel
is always the `MigrationFile` itself, before any diagnostic string or error,
and the full sequence matches the shape file, then diagnostic strings, then
at most two errors (the second only being a failed rollback's error),
followed by the close. -/
theorem c8_file_event_first (d : Driver) (f : File) (env : Env) :
    (migrate d f env).pipeOps.head? = some (PipeOp.send (Event.file f)) ∧
    pipeShape 2 (migrate d f env).pipeOps = true :=
  ⟨(migrate_paths d f env).2.2.1, (migrate_paths d f env).2.2.2.1⟩

/-- Claim C1: the bookkeeping write precedes the migration body.  In a real
(non-simulated) run whose begin, bootstrap, bookkeeping and content-load
steps succeed, the transaction trace starts with the begin, the bootstrap
statement, then — for direction Apply — the `INSERT` of the file's version
and only then the file's SQL content (for Revert, the `DELETE` then the
content), and exactly one transaction is begun in the whole run, so both the
bookkeeping statement and the body run inside that single transaction. -/
theorem c1_bookkeeping_precedes_body (d : Driver) (f : File) (env : Env)
    (hs : d.simulate = false) (hb : env.beginErr = none)
    (hc : env.createErr = none) (hk : env.bookErr = none)
    (hr : env.readErr = none) :
    (f.direction = Direction.up →
      ∃ tail, (migrate d f env).dbActions =
        DbAction.begin :: DbAction.exec createTableStmt ::
          DbAction.exec (insertStmt f.version) :: DbAction.exec f.content ::
          tail) ∧
    (f.direction = Direction.down →
      ∃ tail, (migrate d f env).dbActions =
        DbAction.begin :: DbAction.exec createTableStmt ::
          DbAction.exec (deleteStmt f.version) :: DbAction.exec f.content ::
          tail) ∧
    beginCount (migrate d f env).dbActions = 1 := by
  obtain ⟨sim⟩ := d
  obtain ⟨v, dir, content⟩ := f
  obtain ⟨be, ce, ke, re, de, rbe, cme⟩ := env
  cases sim with
  | true => exact Bool.noConfusion hs
  | false =>
    cases be with
    | some e => exact Option.noConfusion hb
    | none =>
      cases ce with
      | some e => exact Option.noConfusion hc
      | none =>
        cases ke with
        | some e => exact Option.noConfusion hk
        | none =>
          cases re with
          | some e => exact Option.noConfusion hr
          | none =>
            cases dir with
            | up =>
              refine ⟨fun _ => ?_, fun h => Direction.noConfusion h, ?_⟩
              · rcases de with _ | (p | m)
                · cases cme <;> exact ⟨[DbAction.commit], rfl⟩
                · exact ⟨[DbAction.rollback], rfl⟩
                · exact ⟨[], rfl⟩
              · rcases de with _ | (p | m) <;> cases cme <;> rfl
            | down =>
              refine ⟨fun h => Direction.noConfusion h, fun _ => ?_, ?_⟩
              · rcases de with _ | (p | m)
                · cases cme <;> exact ⟨[DbAction.commit], rfl⟩
                · exact ⟨[DbAction.rollback], rfl⟩
                · exact ⟨[], rfl⟩
              · rcases de with _ | (p | m) <;> cases cme <;> rfl
            | other =>
              refine ⟨fun h => Direction.noConfusion h,
                fun h => Direction.noConfusion h, ?_⟩
              rcases de with _ | (p | m) <;> cases cme <;> rfl

/-- Claim C1, witness: a successful Apply run of version 3 executes the
bootstrap, the insert of version 3, then the body, in that order. -/
theorem c1_witness :
    ∃ tail, (migrate ⟨false⟩ ⟨3, Direction.up, "CREATE TABLE t(x int);"⟩
      ⟨none, none, none, none, none, none, none⟩).dbActions =
      DbAction.begin :: DbAction.exec createTableStmt ::
        DbAction.exec (insertStmt 3) ::
        DbAction.exec "CREATE TABLE t(x int);" :: tail :=
  (c1_bookkeeping_precedes_body ⟨false⟩
    ⟨3, Direction.up, "CREATE TABLE t(x int);"⟩
    ⟨none, none, none, none, none, none, none⟩
    rfl rfl rfl rfl rfl).1 rfl

/-- Claim C4: with simulate mode enabled no statement of the bootstrap,
bookkeeping or body steps is executed against the connection — the run never
calls `tx.Exec` and cannot panic — and, whenever begin and content-load
succeed, the run emits exactly the literal statement texts behind the visual
separator (bootstrap, then the direction's bookkeeping statement, then the
body) and proceeds to the commit, the transaction trace being just the begin
and the commit. -/
theorem c4_simulate_emits_instead_of_executing (d : Driver) (f : File)
    (env : Env) (hs : d.simulate = true) :
    execCount (migrate d f env).dbActions = 0 ∧
    (migrate d f env).crashed = false ∧
    (env.beginErr = none → env.readErr = none →
      strEvents (migrate d f env).pipeOps =
        [sepLine ++ createTableStmt] ++
          (match f.direction with
           | Direction.up => [sepLine ++ insertStmt f.version]
           | Direction.down => [sepLine ++ deleteStmt f.version]
           | Direction.other => []) ++
          [sepLine ++ f.content] ∧
      (migrate d f env).dbActions = [DbAction.begin, DbAction.commit]) := by
  obtain ⟨sim⟩ := d
  obtain ⟨v, dir, content⟩ := f
  obtain ⟨be, ce, ke, re, de, rbe, cme⟩ := env
  cases sim with
  | false => exact Bool.noConfusion hs
  | true =>
    cases be <;> cases re <;> cases dir <;> cases cme <;>
      first
        | exact ⟨rfl, rfl, fun h1 h2 => ⟨rfl, rfl⟩⟩
        | exact ⟨rfl, rfl, fun h1 h2 => Option.noConfusion h1⟩
        | exact ⟨rfl, rfl, fun h1 h2 => Option.noConfusion h2⟩

/-- Claim C4, witness: a simulated Apply run of version 3 executes nothing
and emits the three statement texts behind the separator. -/
theorem c4_witness :
    execCount (migrate ⟨true⟩ ⟨3, Direction.up, "CREATE TABLE t(x int);"⟩
      ⟨none, none, none, none, none, none, none⟩).dbActions = 0 ∧
    strEvents (migrate ⟨true⟩ ⟨3, Direction.up, "CREATE TABLE t(x int);"⟩
      ⟨none, none, none, none, none, none, none⟩).pipeOps =
      [sepLine ++ createTableStmt, sepLine ++ insertStmt 3,
        sepLine ++ "CREATE TABLE t(x int);"] := by
  have h := c4_simulate_emits_instead_of_executing ⟨true⟩
    ⟨3, Direction.up, "CREATE TABLE t(x int);"⟩
    ⟨none, none, none, none, none, none, none⟩ rfl
  exact ⟨h.1, (h.2.2 rfl rfl).1⟩

/-- In a real run that reaches the body and fails with a `*pq.Error`, with a
successful rollback: the full result is the file event, the composite error
built by the body-failure branch, and the close; the transaction trace is the
begin, the bootstrap, the direction's bookkeeping statement, the body, and
the rollback; and the run does not panic. -/
theorem migrate_body_pq (f : File) (env : Env) (p : PqError)
    (hb : env.beginErr = none) (hc : env.createErr = none)
    (hk : env.bookErr = none) (hr : env.readErr = none)
    (he : env.bodyErr = some (GoError.pq p)) (hrb : env.rollbackErr = none) :
    migrate ⟨false⟩ f env =
      ⟨[PipeOp.send (Event.file f), PipeOp.send (bodyFailureEvent f p),
         PipeOp.close],
       DbAction.begin :: DbAction.exec createTableStmt ::
         ((match f.direction with
           | Direction.up => [DbAction.exec (insertStmt f.version)]
           | Direction.down => [DbAction.exec (deleteStmt f.version)]
           | Direction.other => []) ++
          [DbAction.exec f.content, DbAction.rollback]),
       false⟩ := by
  obtain ⟨v, dir, content⟩ := f
  obtain ⟨be, ce, ke, re, de, rbe, cme⟩ := env
  cases be with
  | some e => exact Option.noConfusion hb
  | none =>
  cases ce with
  | some e => exact Option.noConfusion hc
  | none =>
  cases ke with
  | some e => exact Option.noConfusion hk
  | none =>
  cases re with
  | some e => exact Option.noConfusion hr
  | none =>
  cases rbe with
  | some e => exact Option.noConfusion hrb
  | none =>
  cases de with
  | none => exact Option.noConfusion he
  | some ge =>
    cases ge with
    | generic m => exact GoError.noConfusion (Option.some.inj he)
    | pq q =>
      have hq : q = p := GoError.pq.inj (Option.some.inj he)
      subst hq
      cases dir <;> rfl

/-- Claim C5: when the migration body fails and the engine error's textual
offset parses to a non-negative integer, the run emits (besides the file
acknowledgment) exactly one composite error, whose line and column are
computed by the position resolver from the offset moved one position
backward, whose context window is exactly 5 lines before and 5 lines after
that line, and whose text combines the engine's severity, code and message
with that line, column and rendered window. -/
theorem c5_body_failure_located_error (d : Driver) (f : File) (env : Env)
    (p : PqError) (off : Int)
    (hs : d.simulate = false) (hb : env.beginErr = none)
    (hc : env.createErr = none) (hk : env.bookErr = none)
    (hr : env.readErr = none) (he : env.bodyErr = some (GoError.pq p))
    (hrb : env.rollbackErr = none)
    (ha : atoi p.position = some off) (hoff : 0 ≤ off) :
    (migrate d f env).pipeOps =
      [PipeOp.send (Event.file f),
       PipeOp.send (Event.err (GoError.generic
         (p.severity ++ " " ++ p.code ++ ": " ++ p.message ++ " in line " ++
          toString (LineColumnFromOffset f.content (off - 1)).1 ++
          ", column " ++
          toString (LineColumnFromOffset f.content (off - 1)).2 ++ ":\n\n" ++
          LinesBeforeAndAfter f.content
            (LineColumnFromOffset f.content (off - 1)).1 5 5 true))),
       PipeOp.close] := by
  obtain ⟨sim⟩ := d
  cases sim with
  | true => exact Bool.noConfusion hs
  | false =>
    rw [migrate_body_pq f env p hb hc hk hr he hrb]
    show [PipeOp.send (Event.file f), PipeOp.send (bodyFailureEvent f p),
      PipeOp.close] = _
    unfold bodyFailureEvent
    rw [ha]
    show [_, PipeOp.send (Event.err (GoError.generic
      (locatedMessage f p off))), _] = _
    unfold locatedMessage
    rw [if_pos hoff]

/-- Claim C5, witness: offset 11 into `"SELECT 1;\nBADSQL;\n"` is moved back
to 10, resolved to line 2 column 1, and rendered with its 5-line window. -/
theorem c5_witness :
    (migrate ⟨false⟩ ⟨4, Direction.up, "SELECT 1;\nBADSQL;\n"⟩
      ⟨none, none, none, none,
        some (GoError.pq ⟨"ERROR", "42601", "syntax error", "11"⟩), none,
        none⟩).pipeOps =
      [PipeOp.send (Event.file ⟨4, Direction.up, "SELECT 1;\nBADSQL;\n"⟩),
       PipeOp.send (Event.err (GoError.generic
         ("ERROR" ++ " " ++ "42601" ++ ": " ++ "syntax error" ++
          " in line " ++
          toString (LineColumnFromOffset "SELECT 1;\nBADSQL;\n"
            ((11 : Int) - 1)).1 ++ ", column " ++
          toString (LineColumnFromOffset "SELECT 1;\nBADSQL;\n"
            ((11 : Int) - 1)).2 ++ ":\n\n" ++
          LinesBeforeAndAfter "SELECT 1;\nBADSQL;\n"
            (LineColumnFromOffset "SELECT 1;\nBADSQL;\n"
              ((11 : Int) - 1)).1 5 5 true))),
       PipeOp.close] :=
  c5_body_failure_located_error ⟨false⟩
    ⟨4, Direction.up, "SELECT 1;\nBADSQL;\n"⟩
    ⟨none, none, none, none,
      some (GoError.pq ⟨"ERROR", "42601", "syntax error", "11"⟩), none, none⟩
    ⟨"ERROR", "42601", "syntax error", "11"⟩ 11
    rfl rfl rfl rfl rfl rfl rfl (by decide) (by decide)

/-- Claim C6, counterexample: the claim says a body-execution failure never
crashes the run regardless of the error's shape, but the code casts the
error to `*pq.Error` unchecked, so a body failure carrying any other error
shape panics. -/
theorem c6_counterexample :
    (migrate ⟨false⟩ ⟨7, Direction.up, "SELECT 1"⟩
      ⟨none, none, none, none,
        some (GoError.generic "driver: bad connection"), none,
        none⟩).crashed = true := rfl

/-- Claim C6, amended: when the body-execution failure carries an engine
(`*pq.Error`) shaped error whose textual offset is absent (unparseable) or
negative, the run tolerates it and falls back to the composite
severity/code/message error without location context, without crashing; a
body failure whose error is not engine-shaped, however, panics on the
unchecked cast. -/
theorem c6_fallback_without_location (d : Driver) (f : File) (env : Env)
    (p : PqError)
    (hs : d.simulate = false) (hb : env.beginErr = none)
    (hc : env.createErr = none) (hk : env.bookErr = none)
    (hr : env.readErr = none) (he : env.bodyErr = some (GoError.pq p))
    (hrb : env.rollbackErr = none)
    (ha : atoi p.position = none ∨
      ∃ off, atoi p.position = some off ∧ off < 0) :
    (migrate d f env).pipeOps =
      [PipeOp.send (Event.file f),
       PipeOp.send (Event.err (GoError.generic
         (p.severity ++ " " ++ p.code ++ ": " ++ p.message))),
       PipeOp.close] ∧
    (migrate d f env).crashed = false := by
  obtain ⟨sim⟩ := d
  cases sim with
  | true => exact Bool.noConfusion hs
  | false =>
    rw [migrate_body_pq f env p hb hc hk hr he hrb]
    refine ⟨?_, rfl⟩
    show [PipeOp.send (Event.file f), PipeOp.send (bodyFailureEvent f p),
      PipeOp.close] = _
    unfold bodyFailureEvent
    rcases ha with ha | ⟨off, ha, hoff⟩
    · rw [ha]
      rfl
    · rw [ha]
      show [_, PipeOp.send (Event.err (GoError.generic
        (locatedMessage f p off))), _] = _
      unfold locatedMessage
      rw [if_neg (not_le.mpr hoff)]
      rfl

/-- Claim C6, witness: a `*pq.Error` whose position field overflows the
64-bit `int` — all digits, but out of `Atoi`'s range, so `Atoi` reports
`ErrRange` — falls back to the bare severity/code/message composite without
crashing. -/
theorem c6_witness :
    (migrate ⟨false⟩ ⟨7, Direction.down, "SELECT 1"⟩
      ⟨none, none, none, none,
        some (GoError.pq
          ⟨"ERROR", "42601", "syntax error", "99999999999999999999"⟩), none,
        none⟩).pipeOps =
      [PipeOp.send (Event.file ⟨7, Direction.down, "SELECT 1"⟩),
       PipeOp.send (Event.err (GoError.generic
         ("ERROR" ++ " " ++ "42601" ++ ": " ++ "syntax error"))),
       PipeOp.close] :=
  (c6_fallback_without_location ⟨false⟩ ⟨7, Direction.down, "SELECT 1"⟩
    ⟨none, none, none, none,
      some (GoError.pq
        ⟨"ERROR", "42601", "syntax error", "99999999999999999999"⟩), none,
      none⟩
    ⟨"ERROR", "42601", "syntax error", "99999999999999999999"⟩
    rfl rfl rfl rfl rfl rfl rfl (Or.inl (by decide))).1

/-- A real run whose bookkeeping insert/delete fails attempts a rollback. -/
theorem rollback_on_book_failure (f : File) (env : Env) (e : GoError)
    (hb : env.beginErr = none) (hc : env.createErr = none)
    (hk : env.bookErr = some e)
    (hd : f.direction = Direction.up ∨ f.direction = Direction.down) :
    DbAction.rollback ∈ (migrate ⟨false⟩ f env).dbActions := by
  obtain ⟨v, dir, content⟩ := f
  obtain ⟨be, ce, ke, re, de, rbe, cme⟩ := env
  cases be with
  | some e1 => exact Option.noConfusion hb
  | none =>
  cases ce with
  | some e1 => exact Option.noConfusion hc
  | none =>
  cases ke with
  | none => exact Option.noConfusion hk
  | some e1 =>
    cases dir with
    | up =>
      exact List.Mem.tail _ (List.Mem.tail _ (List.Mem.tail _
        (List.Mem.head _)))
    | down =>
      exact List.Mem.tail _ (List.Mem.tail _ (List.Mem.tail _
        (List.Mem.head _)))
    | other =>
      rcases hd with h | h <;> exact Direction.noConfusion h

/-- A real run whose body execution fails with a `*pq.Error` attempts a
rollback. -/
theorem rollback_on_body_failure (f : File) (env : Env) (p : PqError)
    (hb : env.beginErr = none) (hc : env.createErr = none)
    (hk : env.bookErr = none) (hr : env.readErr = none)
    (he : env.bodyErr = some (GoError.pq p)) :
    DbAction.rollback ∈ (migrate ⟨false⟩ f env).dbActions := by
  obtain ⟨v, dir, content⟩ := f
  obtain ⟨be, ce, ke, re, de, rbe, cme⟩ := env
  cases be with
  | some e1 => exact Option.noConfusion hb
  | none =>
  cases ce with
  | some e1 => exact Option.noConfusion hc
  | none =>
  cases ke with
  | some e1 => exact Option.noConfusion hk
  | none =>
  cases re with
  | some e1 => exact Option.noConfusion hr
  | none =>
  cases de with
  | none => exact Option.noConfusion he
  | some ge =>
    cases ge with
    | generic m => exact GoError.noConfusion (Option.some.inj he)
    | pq q =>
      have hq : q = p := GoError.pq.inj (Option.some.inj he)
      subst hq
      cases dir with
      | up =>
        exact List.Mem.tail _ (List.Mem.tail _ (List.Mem.tail _
          (List.Mem.tail _ (List.Mem.head _))))
      | down =>
        exact List.Mem.tail _ (List.Mem.tail _ (List.Mem.tail _
          (List.Mem.tail _ (List.Mem.head _))))
      | other =>
        exact List.Mem.tail _ (List.Mem.tail _ (List.Mem.tail _
          (List.Mem.head _)))

/-- Claim C9: when loading the migration file's content fails (after begin,
bootstrap and bookkeeping succeeded), the run emits exactly the content-load
error and terminates without attempting a rollback of the open transaction —
unlike the bookkeeping-failure and body-failure paths, which do attempt a
rollback. -/
theorem c9_content_load_failure_skips_rollback (d : Driver) (f : File)
    (env : Env) (e : GoError)
    (hb : env.beginErr = none) (hc : env.createErr = none)
    (hk : env.bookErr = none) (hr : env.readErr = some e) :
    errEvents (migrate d f env).pipeOps = [e] ∧
    DbAction.rollback ∉ (migrate d f env).dbActions ∧
    (∀ env' e1, env'.beginErr = none → env'.createErr = none →
      env'.bookErr = some e1 →
      f.direction = Direction.up ∨ f.direction = Direction.down →
      DbAction.rollback ∈ (migrate ⟨false⟩ f env').dbActions) ∧
    (∀ env' p, env'.beginErr = none → env'.createErr = none →
      env'.bookErr = none → env'.readErr = none →
      env'.bodyErr = some (GoError.pq p) →
      DbAction.rollback ∈ (migrate ⟨false⟩ f env').dbActions) := by
  refine ⟨?_, ?_,
    fun env' e1 hb' hc' hk' hd =>
      rollback_on_book_failure f env' e1 hb' hc' hk' hd,
    fun env' p hb' hc' hk' hr' he' =>
      rollback_on_body_failure f env' p hb' hc' hk' hr' he'⟩ <;>
  · obtain ⟨sim⟩ := d
    obtain ⟨v, dir, content⟩ := f
    obtain ⟨be, ce, ke, re, de, rbe, cme⟩ := env
    cases be with
    | some e1 => exact Option.noConfusion hb
    | none =>
    cases ce with
    | some e1 => exact Option.noConfusion hc
    | none =>
    cases ke with
    | some e1 => exact Option.noConfusion hk
    | none =>
    cases re with
    | none => exact Option.noConfusion hr
    | some e1 =>
      have he1 : e1 = e := Option.some.inj hr
      subst he1
      cases sim <;> cases dir <;>
        first
          | rfl
          | exact of_decide_eq_true rfl

/-- Claim C9, witness: a content-load failure surfaces as the only drained
error and the transaction trace contains no rollback. -/
theorem c9_witness :
    errEvents (migrate ⟨false⟩ ⟨5, Direction.up, "SELECT 5"⟩
      ⟨none, none, none, some (GoError.generic "open 5.sql: no such file"),
        none, none, none⟩).pipeOps =
      [GoError.generic "open 5.sql: no such file"] ∧
    DbAction.rollback ∉ (migrate ⟨false⟩ ⟨5, Direction.up, "SELECT 5"⟩
      ⟨none, none, none, some (GoError.generic "open 5.sql: no such file"),
        none, none, none⟩).dbActions := by
  have h := c9_content_load_failure_skips_rollback ⟨false⟩
    ⟨5, Direction.up, "SELECT 5"⟩
    ⟨none, none, none, some (GoError.generic "open 5.sql: no such file"),
      none, none, none⟩
    (GoError.generic "open 5.sql: no such file") rfl rfl rfl rfl
  exact ⟨h.1, h.2.1⟩

/-- Claim C10: a real run whose file direction is neither Apply nor Revert
silently skips the bookkeeping step — the environment's bookkeeping outcome
is never consulted and no insert or delete is executed — while the table
bootstrap, content load, body execution and commit/rollback proceed exactly
as in a normal run, as the full transaction-trace characterization shows. -/
theorem c10_unknown_direction_skips_bookkeeping (d : Driver) (f : File)
    (env : Env) (hdir : f.direction = Direction.other)
    (hs : d.simulate = false) :
    (migrate d f env).dbActions =
      (match env.beginErr with
       | some _ => []
       | none =>
         match env.createErr with
         | some _ => [DbAction.begin, DbAction.exec createTableStmt,
             DbAction.rollback]
         | none =>
           match env.readErr with
           | some _ => [DbAction.begin, DbAction.exec createTableStmt]
           | none =>
             match env.bodyErr with
             | some (GoError.generic _) => [DbAction.begin,
                 DbAction.exec createTableStmt, DbAction.exec f.content]
             | some (GoError.pq _) => [DbAction.begin,
                 DbAction.exec createTableStmt, DbAction.exec f.content,
                 DbAction.rollback]
             | none => [DbAction.begin, DbAction.exec createTableStmt,
                 DbAction.exec f.content, DbAction.commit]) := by
  obtain ⟨sim⟩ := d
  obtain ⟨v, dir, content⟩ := f
  obtain ⟨be, ce, ke, re, de, rbe, cme⟩ := env
  cases sim with
  | true => exact Bool.noConfusion hs
  | false =>
    cases dir with
    | up => exact Direction.noConfusion hdir
    | down => exact Direction.noConfusion hdir
    | other =>
      cases be <;> cases ce <;> cases re <;> rcases de with _ | (p | m) <;>
        cases cme <;> rfl

/-- Claim C10, witness: with an unrecognized direction even a failing
bookkeeping environment is never consulted — the trace is bootstrap, body,
commit with no insert or delete. -/
theorem c10_witness :
    (migrate ⟨false⟩ ⟨9, Direction.other, "SELECT 9"⟩
      ⟨none, none, some (GoError.generic "would fail if consulted"), none,
        none, none, none⟩).dbActions =
      [DbAction.begin, DbAction.exec createTableStmt,
        DbAction.exec "SELECT 9", DbAction.commit] :=
  c10_unknown_direction_skips_bookkeeping ⟨false⟩
    ⟨9, Direction.other, "SELECT 9"⟩
    ⟨none, none, some (GoError.generic "would fail if consulted"), none,
      none, none, none⟩ rfl rfl

/-- `runVersionQuery` on a nonempty table returns a row holding an upper
bound of the rows that is itself one of the rows — the maximum. -/
theorem runVersionQuery_spec (rows : List Nat) (h : rows ≠ []) :
    ∃ m, runVersionQuery rows = QueryOutcome.row m ∧ m ∈ rows ∧
      ∀ v ∈ rows, v ≤ m := by
  induction rows with
  | nil => exact absurd rfl h
  | cons a rest ih =>
    cases rest with
    | nil =>
      refine ⟨a, rfl, List.mem_cons_self a [], ?_⟩
      intro v hv
      rcases List.mem_cons.mp hv with h1 | hv2
      · exact le_of_eq h1
      · exact absurd hv2 (List.not_mem_nil v)
    | cons b rest2 =>
      obtain ⟨m, hm, hmem, hub⟩ := ih (List.cons_ne_nil b rest2)
      refine ⟨max a m, ?_, ?_, ?_⟩
      · rw [runVersionQuery, hm]
      · rcases le_total a m with hle | hle
        · rw [max_eq_right hle]
          exact List.mem_cons_of_mem a hmem
        · rw [max_eq_left hle]
          exact List.mem_cons_self a (b :: rest2)
      · intro v hv
        rcases List.mem_cons.mp hv with h1 | hv2
        · exact le_trans (le_of_eq h1) (le_max_left a m)
        · exact le_trans (hub v hv2) (le_max_right a m)

/-- Claim C7: the driver's `Version` operation runs a fixed query selecting
the maximum version in the bookkeeping table; an empty table (surfacing as
`sql.ErrNoRows`) yields version 0 with no error rather than a failure, and
any other query failure propagates as the error of the result. -/
theorem c7_version_reads_maximum (rows : List Nat) (e : GoError) :
    (rows = [] → Version (runVersionQuery rows) = (0, none)) ∧
    (rows ≠ [] → (Version (runVersionQuery rows)).1 ∈ rows ∧
      (∀ v ∈ rows, v ≤ (Version (runVersionQuery rows)).1) ∧
      (Version (runVersionQuery rows)).2 = none) ∧
    Version (QueryOutcome.failure e) = (0, some e) ∧
    versionQuery =
      "SELECT version FROM schema_migrations ORDER BY version DESC LIMIT 1" := by
  refine ⟨?_, ?_, rfl, rfl⟩
  · rintro rfl
    rfl
  · intro h
    obtain ⟨m, hm, hmem, hub⟩ := runVersionQuery_spec rows h
    rw [hm]
    exact ⟨hmem, hub, rfl⟩

/-- Claim C7, witness: an empty table gives `(0, nil)` and a table holding
versions 3 and 1 reports one of its own rows (the maximum, 3). -/
theorem c7_witness :
    Version (runVersionQuery ([] : List Nat)) = (0, none) ∧
    (Version (runVersionQuery [3, 1])).1 ∈ [3, 1] :=
  ⟨(c7_version_reads_maximum [] (GoError.generic "x")).1 rfl,
   ((c7_version_reads_maximum [3, 1] (GoError.generic "x")).2.1
     (by decide)).1⟩

end Postgres
